import Mathlib

/-!
Verification of the DocBook conversion core of
`pkgs/tools/nix/nixos-render-docs/src/nixos_render_docs/manual.py`.

The per-token handlers (`_heading_tag`, `code_block`, `fence`), the section
assembler (`add_section`, `finalize`) and the fragment converter (`convert`)
are embedded as pure Lean functions.  The external collaborators (the
markdown-it tokenizer and the generic `DocBookRenderer` dispatch loop living
in `docbook.py` / `md.py`) are not part of the embedded core: where a handler
consumes their output, that output is passed in as an explicit argument
(e.g. the `(tag, attrs)` pair returned by `super()._heading_tag`), and where
a converter invokes the whole rendering pipeline, the pipeline is passed in
as an explicit function or its per-file outcome as an explicit
`Except` value.
-/

namespace NixosRenderDocs

/-- The fields of a markdown-it `Token` that the embedded handlers consult:
`tag` (e.g. "h1".."h6"), `map` (the source line range of a block token),
`info` (the fence info string) and `content` (the block body). -/
structure Token where
  tag : String
  map : Option (Nat × Nat)
  info : String
  content : String
deriving DecidableEq, Repr

/-- Python exceptions as far as the embedded code distinguishes them:
`runtimeError msg cause` models `raise RuntimeError(msg) from cause`,
`structuralError msg tok` models the duplicate-title `RuntimeError(msg, token)`
raised inside `_heading_tag`, `assertionError` models a failed `assert`, and
`other` stands for any failure produced by the external collaborators
(I/O errors, tokenizer parse errors, ...). -/
inductive PyError where
  | runtimeError (msg : String) (cause : PyError)
  | structuralError (msg : String) (tok : Token)
  | assertionError
  | other (msg : String)
deriving DecidableEq, Repr

/-- Attribute mappings (`dict[str, str]` in the source), as association
lists in insertion order. -/
abbrev Attrs := List (String × String)

/-- Lookup in an attribute mapping (first match wins; a Python dict has
unique keys, so this agrees with `d[k]`). -/
def Attrs.lookup : Attrs → String → Option String
  | [], _ => none
  | (k, v) :: rest, key => if k = key then some v else Attrs.lookup rest key

/-- One key/value update, mirroring how Python `dict` union treats a single
right-hand entry: an existing key keeps its position and is overwritten,
a new key is appended at the end. -/
def Attrs.insert (d : Attrs) (k v : String) : Attrs :=
  if (List.any d fun p => p.1 == k) then
    List.map (fun p : String × String => if p.1 = k then (k, v) else p) d
  else
    List.append d [(k, v)]

/-- Python `dict` union `d | e`: left-to-right fold of `Attrs.insert`
over the right operand's entries. -/
def Attrs.union (d e : Attrs) : Attrs :=
  List.foldl (fun acc p => Attrs.insert acc p.1 p.2) d e

/-- The render state of `ManualDocBookRenderer`: the single mutable
boolean `_title_seen`. -/
structure RenderState where
  title_seen : Bool
deriving DecidableEq, Repr

/-- The render state of `ManualFragmentDocBookRenderer`: the inherited
`_title_seen` plus the caller-supplied root tag `_tag`. -/
structure FragState where
  title_seen : Bool
  rootTag : String
deriving DecidableEq, Repr

def xmlnsDocbook : String := "http://docbook.org/ns/docbook"

def xmlnsXlink : String := "http://www.w3.org/1999/xlink"

def xmlnsXi : String := "http://www.w3.org/2001/XInclude"

/-- The attribute entries injected on the title element in chapter mode. -/
def nsChapter : Attrs := [("xmlns", xmlnsDocbook), ("xmlns:xlink", xmlnsXlink)]

/-- The message of the duplicate-title `RuntimeError`, with the offending
source line range interpolated. -/
def dupTitleMsg (a b : Nat) : String :=
  "only one title heading (# [text...]) allowed per manual chapter " ++
  "but found a second in lines " ++
  ("[" ++ toString a ++ ".." ++ toString b ++ "]") ++
  ". please remove all such headings except the first, split your " ++
  "chapters, or demote the subsequent headings to (##) or lower."

/-- `ManualDocBookRenderer._heading_tag`.  `base` is the `(tag, attrs)` pair
returned by `super()._heading_tag` (the generic renderer in `docbook.py`).
Returns the updated state together with the tag and attributes to emit, or
the raised exception. -/
def ManualDocBookRenderer.heading_tag (st : RenderState) (token : Token)
    (base : String × Attrs) : Except PyError (RenderState × String × Attrs) :=
  let (tag, attrs) := base
  if st.title_seen then
    if token.tag = "h1" then
      match token.map with
      | some m => .error (.structuralError (dupTitleMsg m.1 m.2) token)
      | none => .error .assertionError
    else
      .ok (st, tag, attrs)
  else
    .ok (⟨true⟩, "chapter", Attrs.union attrs nsChapter)

/-- `ManualFragmentDocBookRenderer._heading_tag`: delegates to the chapter
renderer's classifier, then for `h1` tokens replaces the tag by the
caller-supplied root tag and adds the XInclude namespace. -/
def ManualFragmentDocBookRenderer.heading_tag (st : FragState) (token : Token)
    (base : String × Attrs) : Except PyError (FragState × String × Attrs) :=
  match ManualDocBookRenderer.heading_tag ⟨st.title_seen⟩ token base with
  | .error e => .error e
  | .ok (st2, tag, attrs) =>
    if token.tag = "h1" then
      .ok (⟨st2.title_seen, st.rootTag⟩, st.rootTag,
           Attrs.union attrs [("xmlns:xi", xmlnsXi)])
    else
      .ok (⟨st2.title_seen, st.rootTag⟩, tag, attrs)

/-- One character of `xml.sax.saxutils.escape` (patterns `&`, `>`, `<`; the
sequential `str.replace` passes agree with a per-character map because no
replacement contains a pattern replaced later). -/
def escapeChar (c : Char) : String :=
  if c = '&' then "&amp;"
  else if c = '>' then "&gt;"
  else if c = '<' then "&lt;"
  else String.singleton c

/-- `xml.sax.saxutils.escape` with no extra entities. -/
def escape (s : String) : String :=
  String.join (List.map escapeChar s.data)

/-- One character of the escaping pass inside `quoteattr`: `escape` plus the
default attribute entities for newline, carriage return and tab. -/
def quoteattrChar (c : Char) : String :=
  if c = '&' then "&amp;"
  else if c = '>' then "&gt;"
  else if c = '<' then "&lt;"
  else if c = Char.ofNat 10 then "&#10;"
  else if c = Char.ofNat 13 then "&#13;"
  else if c = Char.ofNat 9 then "&#9;"
  else String.singleton c

/-- The double-quote character. -/
def dquote : Char := Char.ofNat 34

/-- The single-quote character. -/
def squote : Char := Char.ofNat 39

/-- `xml.sax.saxutils.quoteattr`: escape the value, then pick a quoting
style depending on which quote characters occur in it. -/
def quoteattr (s : String) : String :=
  let d := String.join (List.map quoteattrChar s.data)
  if List.any d.data (fun c => c == dquote) then
    if List.any d.data (fun c => c == squote) then
      String.singleton dquote ++
        String.join (List.map
          (fun c => if c = dquote then "&quot;" else String.singleton c) d.data) ++
        String.singleton dquote
    else
      String.singleton squote ++ d ++ String.singleton squote
  else
    String.singleton dquote ++ d ++ String.singleton dquote

/-- `ManualDocBookRenderer.code_block`: indented code blocks. -/
def ManualDocBookRenderer.code_block (token : Token) : String :=
  "<programlisting>\n" ++ escape token.content ++ "</programlisting>"

/-- `ManualDocBookRenderer.fence`: the raw-docbook escape hatch for info
string `{=docbook}`, else a `programlisting` with an optional quoted
`language` attribute. -/
def ManualDocBookRenderer.fence (token : Token) : String :=
  if token.info = "\x7b=docbook\x7d" then
    token.content
  else
    let info := if token.info ≠ "" then " language=" ++ quoteattr token.info else ""
    "<programlisting" ++ info ++ ">\n" ++ escape token.content ++ "</programlisting>"

/-- `RenderedSection`: an optional section id and the rendered chapter
strings appended so far. -/
structure RenderedSection where
  id : Option String
  chapters : List String
deriving DecidableEq, Repr

/-- `DocBookSectionConverter.finalize` over the accumulated `_sections`
list: for each section an opening tag (note the f-string
`f'<section {id}>'` leaves a space before `>` when the id is absent),
the chapter strings, and `</section>`, all joined by newlines. -/
def DocBookSectionConverter.finalize (sections : List RenderedSection) : String :=
  String.intercalate "\n" (List.foldl
    (fun result sec =>
      let id := match sec.id with
        | some i => "id=" ++ quoteattr i
        | none => ""
      List.append (List.append result (("<section " ++ id ++ ">") :: sec.chapters))
        ["</section>"])
    [] sections)

/-- The chapter loop of `BaseConverter.add_section`: `cur` is the
`RenderedSection` appended at the start of the call, and each list element
is a chapter path paired with the outcome of opening and rendering that
file (the `open`/`self._render` part delegated to the external pipeline).
A successful render is appended to the section's chapter list; the first
failure stops the loop and is re-raised as the chapter-naming
`RuntimeError` with the original exception as its cause. -/
def addChapters (cur : RenderedSection) :
    List (String × Except PyError String) → RenderedSection × Option PyError
  | [] => (cur, none)
  | (chpath, r) :: rest =>
    match r with
    | .ok rendered => addChapters ⟨cur.id, List.append cur.chapters [rendered]⟩ rest
    | .error e =>
      (cur, some (.runtimeError ("failed to render manual chapter " ++ chpath) e))

/-- `BaseConverter.add_section`: appends a fresh `RenderedSection` to
`_sections`, then runs the chapter loop.  Returns the converter's section
list after the call together with the raised exception, if any (in Python
the exception propagates but the mutations up to that point persist on the
converter object). -/
def BaseConverter.add_section (sections : List RenderedSection) (id : Option String)
    (chapters : List (String × Except PyError String)) :
    List RenderedSection × Option PyError :=
  let r := addChapters ⟨id, []⟩ chapters
  (List.append sections [r.1], r.2)

/-- `DocBookFragmentConverter.convert`, abstracted over the outcome of
`open(file)` + `self._render(...)`: a success is returned as-is, any
exception is re-raised as a `RuntimeError` naming the fragment kind and
file, with the original exception as its cause. -/
def DocBookFragmentConverter.convert (file tag : String)
    (rendered : Except PyError String) : Except PyError String :=
  match rendered with
  | .ok s => .ok s
  | .error e =>
    .error (.runtimeError ("failed to render manual " ++ tag ++ " " ++ file) e)

/-- The state-threading view of one chapter render inside
`BaseConverter.add_section`: `f` is the external render pipeline
(`self._render` as a function of the renderer state and the file text,
returning the output and the renderer state it leaves behind).  The source
sets `self._md.renderer._title_seen = False` before calling it. -/
def BaseConverter.render_chapter
    (f : RenderState → String → Except PyError String × RenderState)
    (st : RenderState) (text : String) : Except PyError String × RenderState :=
  f { st with title_seen := false } text

/-- The state-threading view of `DocBookFragmentConverter.convert`: the
source sets `_title_seen = False` and `_tag = tag` on the persistent
renderer before invoking the pipeline `f`, and wraps any failure. -/
def DocBookFragmentConverter.convert_stateful
    (f : FragState → String → Except PyError String × FragState)
    (st : FragState) (file tag text : String) :
    Except PyError String × FragState :=
  let r := f { st with title_seen := false, rootTag := tag } text
  (match r.1 with
   | .ok s => .ok s
   | .error e =>
     .error (.runtimeError ("failed to render manual " ++ tag ++ " " ++ file) e),
   r.2)

/-- Modelled from the spec (amended at the absent-id opening tag, which the
code renders as `<section >` with a trailing space): `finalize` produces,
for each section in insertion order, the opening tag, the chapter strings
in insertion order, and `</section>`, all top-level pieces joined by
newlines. -/
def finalizeSpecAmended (sections : List RenderedSection) : String :=
  String.intercalate "\n" (List.flatMap sections
    (fun sec =>
      (match sec.id with
       | some i => "<section id=" ++ quoteattr i ++ ">"
       | none => "<section >") :: List.append sec.chapters ["</section>"]))

deriving instance DecidableEq for Except

/-! Helper lemmas about attribute lookup through `Attrs.insert`. -/

theorem lookup_map_update (k v : String) :
    ∀ d : Attrs, (List.any d fun p => p.1 == k) = true →
      Attrs.lookup (List.map (fun p : String × String => if p.1 = k then (k, v) else p) d) k
        = some v
  | [], h => by simp at h
  | (k0, v0) :: tl, h => by
    by_cases hk : k0 = k
    · rw [List.map_cons]
      simp only [if_pos hk]
      simp [Attrs.lookup]
    · have h' : (List.any tl fun p => p.1 == k) = true := by simpa [hk] using h
      rw [List.map_cons]
      simp only [if_neg hk]
      rw [Attrs.lookup, if_neg hk]
      exact lookup_map_update k v tl h'

theorem lookup_append_single (k v : String) :
    ∀ d : Attrs, (List.any d fun p => p.1 == k) = false →
      Attrs.lookup (List.append d [(k, v)]) k = some v
  | [], _ => by simp [Attrs.lookup]
  | (k0, v0) :: tl, h => by
    have hk : ¬ (k0 = k) := by
      intro he
      simp [he] at h
    have h' : (List.any tl fun p => p.1 == k) = false := by
      simpa [hk] using h
    rw [List.append_eq, List.cons_append, Attrs.lookup, if_neg hk, ← List.append_eq]
    exact lookup_append_single k v tl h'

theorem lookup_insert_self (d : Attrs) (k v : String) :
    Attrs.lookup (Attrs.insert d k v) k = some v := by
  unfold Attrs.insert
  cases hc : (List.any d fun p => p.1 == k) with
  | true => simpa [hc] using lookup_map_update k v d hc
  | false => simpa [hc] using lookup_append_single k v d hc

theorem lookup_map_update_other (k v k' : String) (hne : k' ≠ k) :
    ∀ d : Attrs,
      Attrs.lookup (List.map (fun p : String × String => if p.1 = k then (k, v) else p) d) k'
        = Attrs.lookup d k'
  | [] => rfl
  | (k0, v0) :: tl => by
    by_cases hk : k0 = k
    · have hne' : ¬ (k0 = k') := by rw [hk]; exact fun he => hne he.symm
      rw [List.map_cons]
      simp only [if_pos hk]
      rw [Attrs.lookup, if_neg (fun he => hne he.symm), Attrs.lookup, if_neg hne']
      exact lookup_map_update_other k v k' hne tl
    · rw [List.map_cons]
      simp only [if_neg hk]
      by_cases hk' : k0 = k'
      · rw [Attrs.lookup, if_pos hk', Attrs.lookup, if_pos hk']
      · rw [Attrs.lookup, if_neg hk', Attrs.lookup, if_neg hk']
        exact lookup_map_update_other k v k' hne tl

theorem lookup_append_single_other (k v k' : String) (hne : k' ≠ k) :
    ∀ d : Attrs, Attrs.lookup (List.append d [(k, v)]) k' = Attrs.lookup d k'
  | [] => by
    rw [List.append_eq, List.nil_append]
    simp only [Attrs.lookup, if_neg (fun he : k = k' => hne he.symm)]
  | (k0, v0) :: tl => by
    rw [List.append_eq, List.cons_append, Attrs.lookup, Attrs.lookup]
    by_cases hk' : k0 = k'
    · rw [if_pos hk', if_pos hk']
    · rw [if_neg hk', if_neg hk', ← List.append_eq]
      exact lookup_append_single_other k v k' hne tl

theorem lookup_insert_other (d : Attrs) (k v k' : String) (hne : k' ≠ k) :
    Attrs.lookup (Attrs.insert d k v) k' = Attrs.lookup d k' := by
  unfold Attrs.insert
  cases hc : (List.any d fun p => p.1 == k) with
  | true => simpa [hc] using lookup_map_update_other k v k' hne d
  | false => simpa [hc] using lookup_append_single_other k v k' hne d

/-- `Attrs.union` with a two-entry right operand is two inserts. -/
theorem union_pair (d : Attrs) (k1 v1 k2 v2 : String) :
    Attrs.union d [(k1, v1), (k2, v2)] = Attrs.insert (Attrs.insert d k1 v1) k2 v2 := rfl

/-- `Attrs.union` with a one-entry right operand is one insert. -/
theorem union_single (d : Attrs) (k1 v1 : String) :
    Attrs.union d [(k1, v1)] = Attrs.insert d k1 v1 := rfl

/-- Running the chapter loop over a prefix of successful renders appends
exactly those rendered strings to the current section. -/
theorem addChapters_map_ok :
    ∀ (pre : List (String × String)) (cur : RenderedSection)
      (l : List (String × Except PyError String)),
      addChapters cur
          (List.append (List.map (fun q : String × String => (q.1, Except.ok q.2)) pre) l)
        = addChapters ⟨cur.id, List.append cur.chapters (List.map Prod.snd pre)⟩ l
  | [], cur, l => by simp [addChapters]
  | q :: tl, cur, l => by
    rw [List.map_cons, List.append_eq, List.cons_append, addChapters]
    rw [← List.append_eq, addChapters_map_ok tl ⟨cur.id, List.append cur.chapters [q.2]⟩ l]
    simp

/-- The opening tag built by `finalize`, in the shape the (amended)
specification states it. -/
theorem open_tag_eq (id : Option String) :
    ("<section " ++ (match id with
      | some i => "id=" ++ quoteattr i
      | none => "") ++ ">")
      = (match id with
         | some i => "<section id=" ++ quoteattr i ++ ">"
         | none => "<section >") := by
  cases id with
  | none => rfl
  | some i =>
    show ("<section " ++ ("id=" ++ quoteattr i)) ++ ">"
        = ("<section id=" ++ quoteattr i) ++ ">"
    rw [← String.append_assoc]
    rfl

/-- The fold inside `finalize` is append of the per-section pieces. -/
theorem finalize_foldl :
    ∀ (sections : List RenderedSection) (acc : List String),
      List.foldl
        (fun result sec =>
          let id := match sec.id with
            | some i => "id=" ++ quoteattr i
            | none => ""
          List.append (List.append result (("<section " ++ id ++ ">") :: sec.chapters))
            ["</section>"])
        acc sections
      = List.append acc (List.flatMap sections
          (fun sec =>
            (match sec.id with
             | some i => "<section id=" ++ quoteattr i ++ ">"
             | none => "<section >") :: List.append sec.chapters ["</section>"]))
  | [], acc => by simp
  | sec :: tl, acc => by
    rw [List.foldl_cons, finalize_foldl tl]
    simp only [List.flatMap_cons, open_tag_eq sec.id]
    simp [List.append_assoc]

/-! The claims. -/

/-- Claim C1: for every chapter render, a level-1 heading classified while
`title_seen` is already true makes rendering fail, in chapter mode and in
fragment mode alike, with the structural `RuntimeError` whose message names
the heading's source line range; the heading is never returned as an
ordinary heading or a second title. -/
theorem claim_C1 (tok : Token) (a b : Nat) (st : RenderState) (fst : FragState)
    (base basef : String × Attrs)
    (hseen : st.title_seen = true) (hfseen : fst.title_seen = true)
    (htag : tok.tag = "h1") (hmap : tok.map = some (a, b)) :
    ManualDocBookRenderer.heading_tag st tok base
      = .error (.structuralError (dupTitleMsg a b) tok)
  ∧ ManualFragmentDocBookRenderer.heading_tag fst tok basef
      = .error (.structuralError (dupTitleMsg a b) tok)
  ∧ (∃ before after, dupTitleMsg a b
      = before ++ ("[" ++ toString a ++ ".." ++ toString b ++ "]") ++ after) := by
  obtain ⟨t1, a1⟩ := base
  obtain ⟨t2, a2⟩ := basef
  refine ⟨?_, ?_, ?_⟩
  · simp [ManualDocBookRenderer.heading_tag, hseen, htag, hmap]
  · simp [ManualFragmentDocBookRenderer.heading_tag, ManualDocBookRenderer.heading_tag,
          hfseen, htag, hmap]
  · refine ⟨"only one title heading (# [text...]) allowed per manual chapter " ++
      "but found a second in lines ",
      ". please remove all such headings except the first, split your " ++
      "chapters, or demote the subsequent headings to (##) or lower.", ?_⟩
    rw [dupTitleMsg, String.append_assoc]

/-- Witness for C1 at a concrete second-title token spanning lines 3..5. -/
theorem claim_C1_witness :
    (⟨true⟩ : RenderState).title_seen = true
  ∧ (⟨true, "section"⟩ : FragState).title_seen = true
  ∧ (⟨"h1", some (3, 5), "", ""⟩ : Token).tag = "h1"
  ∧ (⟨"h1", some (3, 5), "", ""⟩ : Token).map = some (3, 5)
  ∧ (ManualDocBookRenderer.heading_tag ⟨true⟩ ⟨"h1", some (3, 5), "", ""⟩ ("h1", [])
      = .error (.structuralError (dupTitleMsg 3 5) ⟨"h1", some (3, 5), "", ""⟩)
    ∧ ManualFragmentDocBookRenderer.heading_tag ⟨true, "section"⟩
        ⟨"h1", some (3, 5), "", ""⟩ ("h1", [])
      = .error (.structuralError (dupTitleMsg 3 5) ⟨"h1", some (3, 5), "", ""⟩)
    ∧ (∃ before after, dupTitleMsg 3 5
        = before ++ ("[" ++ toString 3 ++ ".." ++ toString 5 ++ "]") ++ after)) :=
  ⟨rfl, rfl, rfl, rfl,
    claim_C1 ⟨"h1", some (3, 5), "", ""⟩ 3 5 ⟨true⟩ ⟨true, "section"⟩
      ("h1", []) ("h1", []) rfl rfl rfl rfl⟩

/-- Claim C2: a level-1 heading classified while the title has not been
seen flips `title_seen` to true and yields the title container tag --
`chapter` in chapter mode, the caller-supplied root tag in fragment mode --
with the namespace attributes injected (`xmlns` and `xmlns:xlink` in
chapter mode, additionally `xmlns:xi` in fragment mode). -/
theorem claim_C2 (m : Option (Nat × Nat)) (i c t rt : String) (a : Attrs) :
    (∃ a1, ManualDocBookRenderer.heading_tag ⟨false⟩ ⟨"h1", m, i, c⟩ (t, a)
        = .ok (⟨true⟩, "chapter", a1)
      ∧ Attrs.lookup a1 "xmlns" = some xmlnsDocbook
      ∧ Attrs.lookup a1 "xmlns:xlink" = some xmlnsXlink)
  ∧ (∃ a2, ManualFragmentDocBookRenderer.heading_tag ⟨false, rt⟩ ⟨"h1", m, i, c⟩ (t, a)
        = .ok (⟨true, rt⟩, rt, a2)
      ∧ Attrs.lookup a2 "xmlns" = some xmlnsDocbook
      ∧ Attrs.lookup a2 "xmlns:xlink" = some xmlnsXlink
      ∧ Attrs.lookup a2 "xmlns:xi" = some xmlnsXi) := by
  have hxl : Attrs.lookup (Attrs.union a nsChapter) "xmlns:xlink" = some xmlnsXlink := by
    rw [show nsChapter = [("xmlns", xmlnsDocbook), ("xmlns:xlink", xmlnsXlink)] from rfl,
        union_pair]
    exact lookup_insert_self _ _ _
  have hxm : Attrs.lookup (Attrs.union a nsChapter) "xmlns" = some xmlnsDocbook := by
    rw [show nsChapter = [("xmlns", xmlnsDocbook), ("xmlns:xlink", xmlnsXlink)] from rfl,
        union_pair, lookup_insert_other _ _ _ _ (by decide)]
    exact lookup_insert_self _ _ _
  refine ⟨⟨Attrs.union a nsChapter, rfl, hxm, hxl⟩,
    ⟨Attrs.union (Attrs.union a nsChapter) [("xmlns:xi", xmlnsXi)], rfl, ?_, ?_, ?_⟩⟩
  · rw [union_single, lookup_insert_other _ _ _ _ (by decide)]
    exact hxm
  · rw [union_single, lookup_insert_other _ _ _ _ (by decide)]
    exact hxl
  · rw [union_single]
    exact lookup_insert_self _ _ _

/-- Counterexample to claim C3 as stated: the very first heading of a
chapter, even at level 2, does NOT keep its natural tag -- the classifier
promotes it to the title element, injecting the namespaces and setting
`title_seen`. -/
theorem claim_C3_counterexample :
    ManualDocBookRenderer.heading_tag ⟨false⟩ ⟨"h2", some (3, 4), "", ""⟩
        ("sect", [("x", "y")])
      = .ok (⟨true⟩, "chapter",
          [("x", "y"), ("xmlns", xmlnsDocbook), ("xmlns:xlink", xmlnsXlink)])
  ∧ ManualDocBookRenderer.heading_tag ⟨false⟩ ⟨"h2", some (3, 4), "", ""⟩
        ("sect", [("x", "y")])
      ≠ .ok (⟨false⟩, "sect", [("x", "y")])
  ∧ ManualDocBookRenderer.heading_tag ⟨false⟩ ⟨"h2", some (3, 4), "", ""⟩
        ("sect", [("x", "y")])
      ≠ .ok (⟨true⟩, "sect", [("x", "y")]) := by decide

/-- Claim C3 (amended): a heading of level 2 through 6 classified after the
title has been seen keeps its natural tag and attributes, with no namespace
injection and no state change; but a level 2-6 heading classified while
`title_seen` is still false receives the full title treatment (tag
`chapter`, namespaces injected, `title_seen` set), so in a chapter with no
level-1 heading the first heading still becomes the title element. -/
theorem claim_C3 (lvl : String) (m : Option (Nat × Nat)) (i c t : String) (a : Attrs)
    (hl : lvl ∈ ["h2", "h3", "h4", "h5", "h6"]) :
    ManualDocBookRenderer.heading_tag ⟨true⟩ ⟨lvl, m, i, c⟩ (t, a) = .ok (⟨true⟩, t, a)
  ∧ ManualDocBookRenderer.heading_tag ⟨false⟩ ⟨lvl, m, i, c⟩ (t, a)
      = .ok (⟨true⟩, "chapter", Attrs.union a nsChapter) := by
  have hne : lvl ≠ "h1" := by
    simp only [List.mem_cons, List.not_mem_nil, or_false] at hl
    rcases hl with rfl | rfl | rfl | rfl | rfl <;> decide
  exact ⟨by simp [ManualDocBookRenderer.heading_tag, hne], rfl⟩

/-- Witness for C3 at a concrete level-2 heading. -/
theorem claim_C3_witness :
    ("h2" ∈ ["h2", "h3", "h4", "h5", "h6"])
  ∧ (ManualDocBookRenderer.heading_tag ⟨true⟩ ⟨"h2", some (7, 8), "", ""⟩ ("sect", [])
        = .ok (⟨true⟩, "sect", [])
    ∧ ManualDocBookRenderer.heading_tag ⟨false⟩ ⟨"h2", some (7, 8), "", ""⟩ ("sect", [])
        = .ok (⟨true⟩, "chapter", Attrs.union [] nsChapter)) :=
  ⟨by decide, claim_C3 "h2" (some (7, 8)) "" "" "sect" [] (by decide)⟩

/-- Claim C4: a fenced block whose info string is exactly the literal
raw-docbook marker passes its body through verbatim and unescaped; any
other fenced block is a `programlisting` whose body is entity-escaped,
carrying an attribute-quoted `language` attribute exactly when the info
string is non-empty; indented code blocks are always a plain
`programlisting` with escaped body and no language attribute. -/
theorem claim_C4 (tg : String) (m : Option (Nat × Nat)) (info c : String) :
    (info = "\x7b=docbook\x7d" →
      ManualDocBookRenderer.fence ⟨tg, m, info, c⟩ = c)
  ∧ (info ≠ "\x7b=docbook\x7d" → info ≠ "" →
      ManualDocBookRenderer.fence ⟨tg, m, info, c⟩
        = "<programlisting language=" ++ quoteattr info ++ ">\n" ++ escape c
            ++ "</programlisting>")
  ∧ (info = "" →
      ManualDocBookRenderer.fence ⟨tg, m, info, c⟩
        = "<programlisting>\n" ++ escape c ++ "</programlisting>")
  ∧ ManualDocBookRenderer.code_block ⟨tg, m, info, c⟩
      = "<programlisting>\n" ++ escape c ++ "</programlisting>" := by
  refine ⟨fun h => by simp [ManualDocBookRenderer.fence, h], fun h1 h2 => ?_, fun h => ?_, rfl⟩
  · have hmerge : ("<programlisting" ++ " language=" : String) = "<programlisting language=" :=
      rfl
    simp only [ManualDocBookRenderer.fence, if_neg h1, ne_eq, h2, not_false_eq_true, if_pos]
    rw [← String.append_assoc "<programlisting" " language=" (quoteattr info), hmerge]
  · subst h
    simp [ManualDocBookRenderer.fence, String.append_empty]

/-- Witness for C4 on concrete fenced and indented blocks. -/
theorem claim_C4_witness :
    ManualDocBookRenderer.fence ⟨"code", none, "\x7b=docbook\x7d", "<x/>"⟩ = "<x/>"
  ∧ ManualDocBookRenderer.fence ⟨"code", none, "python", "a<b"⟩
      = "<programlisting language=\x22python\x22>\na&lt;b</programlisting>"
  ∧ ManualDocBookRenderer.fence ⟨"code", none, "", "a<b"⟩
      = "<programlisting>\na&lt;b</programlisting>"
  ∧ ManualDocBookRenderer.code_block ⟨"code", none, "", "a&b"⟩
      = "<programlisting>\na&amp;b</programlisting>" :=
  ⟨(claim_C4 "code" none "\x7b=docbook\x7d" "<x/>").1 rfl,
   ((claim_C4 "code" none "python" "a<b").2.1 (by decide) (by decide)).trans (by decide),
   ((claim_C4 "code" none "" "a<b").2.2.1 rfl).trans (by decide),
   ((claim_C4 "code" none "" "a&b").2.2.2).trans (by decide)⟩

/-- Counterexample to claim C5 as stated: the opening tag of an id-less
section is not the exact string `<section>` -- the f-string leaves a space
before the closing angle bracket. -/
theorem claim_C5_counterexample :
    DocBookSectionConverter.finalize [⟨none, ["A", "B"]⟩, ⟨some "ch-intro", ["C"]⟩]
      ≠ "<section>\nA\nB\n</section>\n<section id=\x22ch-intro\x22>\nC\n</section>" := by
  decide

/-- Claim C5 (amended): `finalize` concatenates, for each section in
insertion order, an opening tag -- rendered as `<section >` (with a
trailing space) when the id is absent and as `<section id="...">`
(attribute-quoted) when present -- followed by that section's chapters in
insertion order and `</section>`, all top-level pieces joined by newlines;
on the spec's example the first two chapters are wrapped by `<section >`
and the third by `<section id="ch-intro">`. -/
theorem claim_C5 :
    (∀ sections, DocBookSectionConverter.finalize sections = finalizeSpecAmended sections)
  ∧ DocBookSectionConverter.finalize [⟨none, ["A", "B"]⟩, ⟨some "ch-intro", ["C"]⟩]
      = "<section >\nA\nB\n</section>\n<section id=\x22ch-intro\x22>\nC\n</section>" := by
  constructor
  · intro sections
    unfold DocBookSectionConverter.finalize finalizeSpecAmended
    rw [finalize_foldl sections []]
    rfl
  · decide

/-- Counterexample to claim C6 as stated: in fragment mode with
tag `section`, the root element does not receive only `xmlns:xi` -- it
inherits the chapter-mode `xmlns` and `xmlns:xlink` injection from the
superclass classifier and adds `xmlns:xi` on top. -/
theorem claim_C6_counterexample :
    ManualFragmentDocBookRenderer.heading_tag ⟨false, "section"⟩
        ⟨"h1", some (0, 1), "", ""⟩ ("h1", [])
      = .ok (⟨true, "section"⟩, "section",
          [("xmlns", xmlnsDocbook), ("xmlns:xlink", xmlnsXlink), ("xmlns:xi", xmlnsXi)])
  ∧ Attrs.lookup
      [("xmlns", xmlnsDocbook), ("xmlns:xlink", xmlnsXlink), ("xmlns:xi", xmlnsXi)]
      "xmlns" ≠ none := by decide

/-- Claim C6 (amended): in fragment mode with tag `section`, on a document
whose first heading is level 1, the root element receives the XInclude
namespace attribute `xmlns:xi` in addition to the chapter-mode namespace
attributes `xmlns` and `xmlns:xlink`; the fragment root attribute set
still differs from chapter-mode's, by the extra `xmlns:xi`. -/
theorem claim_C6 (m : Option (Nat × Nat)) (i c t : String) (a : Attrs)
    (hxi : Attrs.lookup a "xmlns:xi" = none) :
    ∃ a2 a1,
      ManualFragmentDocBookRenderer.heading_tag ⟨false, "section"⟩ ⟨"h1", m, i, c⟩ (t, a)
        = .ok (⟨true, "section"⟩, "section", a2)
      ∧ Attrs.lookup a2 "xmlns:xi" = some xmlnsXi
      ∧ Attrs.lookup a2 "xmlns" = some xmlnsDocbook
      ∧ Attrs.lookup a2 "xmlns:xlink" = some xmlnsXlink
      ∧ ManualDocBookRenderer.heading_tag ⟨false⟩ ⟨"h1", m, i, c⟩ (t, a)
        = .ok (⟨true⟩, "chapter", a1)
      ∧ Attrs.lookup a1 "xmlns:xi" = none
      ∧ a2 ≠ a1 := by
  obtain ⟨⟨a1, h1, hm1, hl1⟩, ⟨a2, h2, hm2, hl2, hxi2⟩⟩ := claim_C2 m i c t "section" a
  have hxi1 : Attrs.lookup a1 "xmlns:xi" = none := by
    have ha1 : a1 = Attrs.union a nsChapter := by
      have := h1
      rw [ManualDocBookRenderer.heading_tag] at this
      simpa using this.symm
    rw [ha1, show nsChapter = [("xmlns", xmlnsDocbook), ("xmlns:xlink", xmlnsXlink)] from rfl,
        union_pair, lookup_insert_other _ _ _ _ (by decide),
        lookup_insert_other _ _ _ _ (by decide)]
    exact hxi
  refine ⟨a2, a1, h2, hxi2, hm2, hl2, h1, hxi1, ?_⟩
  intro he
  rw [he, hxi1] at hxi2
  exact Option.noConfusion hxi2

/-- Witness for C6 with an empty base attribute mapping. -/
theorem claim_C6_witness :
    Attrs.lookup [] "xmlns:xi" = none
  ∧ (∃ a2 a1,
      ManualFragmentDocBookRenderer.heading_tag ⟨false, "section"⟩
          ⟨"h1", some (0, 1), "", ""⟩ ("h1", [])
        = .ok (⟨true, "section"⟩, "section", a2)
      ∧ Attrs.lookup a2 "xmlns:xi" = some xmlnsXi
      ∧ Attrs.lookup a2 "xmlns" = some xmlnsDocbook
      ∧ Attrs.lookup a2 "xmlns:xlink" = some xmlnsXlink
      ∧ ManualDocBookRenderer.heading_tag ⟨false⟩ ⟨"h1", some (0, 1), "", ""⟩ ("h1", [])
        = .ok (⟨true⟩, "chapter", a1)
      ∧ Attrs.lookup a1 "xmlns:xi" = none
      ∧ a2 ≠ a1) :=
  ⟨rfl, claim_C6 (some (0, 1)) "" "" "h1" [] rfl⟩

/-- Claim C7: every failure while rendering a chapter or fragment is caught
at the chapter/fragment boundary and re-raised as a `RuntimeError` naming
the failing file and operation kind ("failed to render manual chapter ..."
in section mode, "failed to render manual <tag> ..." in fragment mode),
with the original exception as its cause; successful renders are passed
through untouched and no error is swallowed. -/
theorem claim_C7 (sections : List RenderedSection) (id : Option String)
    (pre : List (String × String)) (p : String) (e : PyError)
    (rest : List (String × Except PyError String)) (file tag s : String) :
    (BaseConverter.add_section sections id
        (List.append (List.map (fun q : String × String => (q.1, Except.ok q.2)) pre)
          ((p, Except.error e) :: rest))).2
      = some (.runtimeError ("failed to render manual chapter " ++ p) e)
  ∧ (BaseConverter.add_section sections id
        (List.map (fun q : String × String => (q.1, Except.ok q.2)) pre)).2 = none
  ∧ DocBookFragmentConverter.convert file tag (.error e)
      = .error (.runtimeError ("failed to render manual " ++ tag ++ " " ++ file) e)
  ∧ DocBookFragmentConverter.convert file tag (.ok s) = .ok s := by
  refine ⟨?_, ?_, rfl, rfl⟩
  · unfold BaseConverter.add_section
    rw [addChapters_map_ok pre ⟨id, []⟩ ((p, Except.error e) :: rest)]
    rfl
  · unfold BaseConverter.add_section
    rw [show List.map (fun q : String × String => (q.1, Except.ok q.2)) pre
          = List.append (List.map (fun q : String × String => (q.1, Except.ok q.2)) pre) []
        from (List.append_nil _).symm,
        addChapters_map_ok pre ⟨id, []⟩ []]
    rfl

/-- Claim C8: one chapter or fragment render is insensitive to any renderer
state left behind by earlier renders, because `_title_seen` (and, in
fragment mode, `_tag`) is reset before the pipeline runs; in particular two
independent renders of the same text give byte-identical results. -/
theorem claim_C8 (f : RenderState → String → Except PyError String × RenderState)
    (g : FragState → String → Except PyError String × FragState)
    (st st' : RenderState) (fst fst' : FragState) (file tag text : String) :
    BaseConverter.render_chapter f st text = BaseConverter.render_chapter f st' text
  ∧ DocBookFragmentConverter.convert_stateful g fst file tag text
      = DocBookFragmentConverter.convert_stateful g fst' file tag text
  ∧ (BaseConverter.render_chapter f (BaseConverter.render_chapter f st text).2 text).1
      = (BaseConverter.render_chapter f st text).1
  ∧ (DocBookFragmentConverter.convert_stateful g
        (DocBookFragmentConverter.convert_stateful g fst file tag text).2 file tag text).1
      = (DocBookFragmentConverter.convert_stateful g fst file tag text).1 :=
  ⟨rfl, rfl, rfl, rfl⟩

/-- Claim C9: when the chapter after a prefix of successful chapters fails,
`add_section` still leaves the newly appended section in the converter's
section list, holding exactly the previously rendered chapter strings; the
failing chapter's output is never appended. -/
theorem claim_C9 (sections : List RenderedSection) (id : Option String)
    (pre : List (String × String)) (p : String) (e : PyError)
    (rest : List (String × Except PyError String)) :
    (BaseConverter.add_section sections id
        (List.append (List.map (fun q : String × String => (q.1, Except.ok q.2)) pre)
          ((p, Except.error e) :: rest))).1
      = List.append sections [⟨id, List.map Prod.snd pre⟩] := by
  unfold BaseConverter.add_section
  rw [addChapters_map_ok pre ⟨id, []⟩ ((p, Except.error e) :: rest)]
  rfl

/-- Claim C10: `finalize` on a converter with no sections returns the empty
string. -/
theorem claim_C10 : DocBookSectionConverter.finalize [] = "" := rfl

end NixosRenderDocs
